import Mathlib

/-!
Shallow embedding of the slide-deck generator (`src/app.py`) and proofs about
its input-normalization and rendering behaviour.

JSON-decoded Python values are modelled by `JValue` (numbers as integers,
which covers every number appearing in the claims), Python exceptions by
`PyErr`, and fallible Python code by `Except PyErr`.  External library calls
(the networkx spring layout / matplotlib draw step, which the code wraps in
`try/except`) are modelled by an oracle parameter returning `Except String`.
-/

namespace SlideMaker

/-- A JSON-decoded Python value: `None`, `bool`, `int`, `str`, `list`, `dict`
(a `dict` as an association list in insertion order, keys unique after JSON
decoding). -/
inductive JValue where
  | null : JValue
  | bool : Bool → JValue
  | num : Int → JValue
  | str : String → JValue
  | arr : List JValue → JValue
  | obj : List (String × JValue) → JValue
  deriving Repr

/-- The Python exceptions the embedded code can raise. -/
inductive PyErr where
  | indexError : String → PyErr
  | attributeError : String → String → PyErr
  | typeError : String → PyErr
  deriving Repr, DecidableEq

/-- Python truthiness (`bool(v)`): `None`, `False`, `0`, `""`, `[]`, `{}` are
falsy, everything else truthy. -/
def truthy : JValue → Bool
  | .null => false
  | .bool b => b
  | .num n => n != 0
  | .str s => s != ""
  | .arr xs => !xs.isEmpty
  | .obj kvs => !kvs.isEmpty

/-- `type(v).__name__` for the modelled values. -/
def pyTypeName : JValue → String
  | .null => "NoneType"
  | .bool _ => "bool"
  | .num _ => "int"
  | .str _ => "str"
  | .arr _ => "list"
  | .obj _ => "dict"

mutual

/-- Python `repr(v)` for JSON-decoded values (string escaping inside the
quotes is not modelled; no claim depends on it). -/
def pyRepr : JValue → String
  | .null => "None"
  | .bool true => "True"
  | .bool false => "False"
  | .num n => toString n
  | .str s => "\x27" ++ s ++ "\x27"
  | .arr xs => "[" ++ String.intercalate ", " (pyReprList xs) ++ "]"
  | .obj kvs => "\x7b" ++ String.intercalate ", " (pyReprPairs kvs) ++ "\x7d"

/-- `repr` of the elements of a list, in order. -/
def pyReprList : List JValue → List String
  | [] => []
  | x :: xs => pyRepr x :: pyReprList xs

/-- `repr` of the key-value pairs of a dict, in order. -/
def pyReprPairs : List (String × JValue) → List String
  | [] => []
  | (k, v) :: kvs => ("\x27" ++ k ++ "\x27: " ++ pyRepr v) :: pyReprPairs kvs

end

/-- Python `str(v)`: identity on strings, `repr` otherwise (which matches
`str` on `None`, booleans, integers, lists and dicts). -/
def pyStr : JValue → String
  | .str s => s
  | v => pyRepr v

/-- `dict.get(k, d)` on the association-list representation. -/
def dgetD (kvs : List (String × JValue)) (k : String) (d : JValue) : JValue :=
  match kvs.find? (fun kv => kv.1 == k) with
  | some kv => kv.2
  | none => d

/-- Python `v == s` against a string literal `s`: true exactly for the equal
string (values of other types never equal a `str`). -/
def isStr (v : JValue) (s : String) : Bool :=
  match v with
  | .str t => t == s
  | _ => false

/-- Python `isinstance(v, list)`. -/
def isList : JValue → Bool
  | .arr _ => true
  | _ => false

/-- Python `v.get(k, d)`: only dicts have a `get` attribute; anything else
raises `AttributeError`. -/
def pyGetD (v : JValue) (k : String) (d : JValue) : Except PyErr JValue :=
  match v with
  | .obj kvs => .ok (dgetD kvs k d)
  | _ => .error (.attributeError (pyTypeName v) "get")

/-- Python iteration `for x in v`: lists yield their elements, strings their
characters, dicts their keys; other values raise `TypeError`. -/
def pyIter : JValue → Except PyErr (List JValue)
  | .arr xs => .ok xs
  | .str s => .ok (s.toList.map fun c => .str (String.singleton c))
  | .obj kvs => .ok (kvs.map fun kv => .str kv.1)
  | v => .error (.typeError (pyTypeName v))

/-- Node cleaning (`app.py` lines 91-98): a `str` is kept as-is, a non-empty
`list` contributes `str` of its first element, a `dict` contributes
`str(list(n.values())[0])` — which on an empty dict raises `IndexError` —
and every other shape is skipped. -/
def clean_nodes : List JValue → Except PyErr (List String)
  | [] => .ok []
  | .str s :: ns => (clean_nodes ns).map fun t => s :: t
  | .arr (x :: _) :: ns => (clean_nodes ns).map fun t => pyStr x :: t
  | .obj [] :: _ => .error (.indexError "list index out of range")
  | .obj ((_, v) :: _) :: ns => (clean_nodes ns).map fun t => pyStr v :: t
  | _ :: ns => clean_nodes ns

/-- Edge cleaning (`app.py` lines 101-108): a `list` of length ≥ 2 yields the
pair of `str` of its first two elements, a `dict` with ≥ 2 values yields the
pair of `str` of its first two values, everything else is skipped. -/
def clean_edges : List JValue → List (String × String)
  | [] => []
  | .arr (a :: b :: _) :: es => (pyStr a, pyStr b) :: clean_edges es
  | .obj ((_, a) :: (_, b) :: _) :: es => (pyStr a, pyStr b) :: clean_edges es
  | _ :: es => clean_edges es

/-- `networkx` node registration: adding a node that is already present is a
no-op, otherwise it is appended. -/
def addNode (acc : List String) (n : String) : List String :=
  if n ∈ acc then acc else acc ++ [n]

/-- The node set of the graph built by `G.add_nodes_from(clean_nodes)` then
`G.add_edges_from(clean_edges)`: each edge implicitly registers both of its
endpoints as nodes. -/
def graphNodeList (cn : List String) (ce : List (String × String)) : List String :=
  ce.foldl (fun acc p => addNode (addNode acc p.1) p.2) (cn.foldl addNode [])

/-- What the network-graph figure body shows (`app.py` lines 110-130). -/
inductive GraphBody where
  | noData : GraphBody
  | drawn : List String → List (String × String) → GraphBody
  | drawError : String → GraphBody
  deriving Repr, DecidableEq

/-- The graph-drawing step (`app.py` lines 110-130) given the cleaned nodes
and edges: if the graph has zero nodes the body is the "No Data for Graph"
placeholder; otherwise the layout/draw call (modelled by the `layout` oracle)
runs inside `try/except`, and an exception `ex` is replaced by the in-image
text `"Graph Error: " ++ ex`. -/
def graphBodyOf (layout : List String → List (String × String) → Except String Unit)
    (cn : List String) (ce : List (String × String)) : GraphBody :=
  let gnodes := graphNodeList cn ce
  if gnodes.isEmpty then .noData
  else
    match layout gnodes ce with
    | .ok _ => .drawn gnodes ce
    | .error ex => .drawError ("Graph Error: " ++ ex)

/-- The full network-graph normalization-and-draw path on the raw node and
edge entry lists (`app.py` lines 87-130). -/
def renderGraphBody (layout : List String → List (String × String) → Except String Unit)
    (rawNodes rawEdges : List JValue) : Except PyErr GraphBody :=
  match clean_nodes rawNodes with
  | .error e => .error e
  | .ok cn => .ok (graphBodyOf layout cn (clean_edges rawEdges))

/-- Python `a or b` as a value (first operand if truthy, else second). -/
def pyOr (a b : JValue) : JValue :=
  if truthy a then a else b

/-- Timeline date extraction (`app.py` line 157):
`e.get('date') or e.get('year') or e.get('time') or e.get('Date') or "N/A"`. -/
def eventDate (e : List (String × JValue)) : JValue :=
  pyOr (dgetD e "date" .null) (pyOr (dgetD e "year" .null)
    (pyOr (dgetD e "time" .null) (pyOr (dgetD e "Date" .null) (.str "N/A"))))

/-- Timeline label extraction (`app.py` line 159):
`e.get('label') or e.get('title') or e.get('event') or e.get('Label') or "No Label"`. -/
def eventLabel (e : List (String × JValue)) : JValue :=
  pyOr (dgetD e "label" .null) (pyOr (dgetD e "title" .null)
    (pyOr (dgetD e "event" .null) (pyOr (dgetD e "Label" .null) (.str "No Label"))))

/-- Timeline label display (`app.py` line 176):
`label[:10] + '...' if len(label) > 10 else label`. -/
def display_label (label : String) : String :=
  if label.length > 10 then (label.toList.take 10).asString ++ "..." else label

/-- What the timeline figure body shows (`app.py` lines 164-183): either the
"No Timeline Data" placeholder or the drawn (date, displayed label) pairs. -/
inductive TimelineBody where
  | noData : TimelineBody
  | drawn : List (String × String) → TimelineBody
  deriving Repr, DecidableEq

/-- The body placed on one slide page. -/
inductive SlideBody where
  | empty : SlideBody
  | bullets : List String → SlideBody
  | barChart : JValue → JValue → SlideBody
  | graphImage : GraphBody → SlideBody
  | timelineImage : TimelineBody → SlideBody
  deriving Repr

/-- One rendered slide page: the title-region value and the body content. -/
structure Page where
  title : JValue
  body : SlideBody
  deriving Repr

/-- The (date, label) pairs collected from the events list (`app.py` lines
150-162): only `dict`-shaped events are recognized. -/
def timelineEntries (events : List JValue) : List (String × String) :=
  events.filterMap fun e =>
    match e with
    | .obj ekvs => some (pyStr (eventDate ekvs), pyStr (eventLabel ekvs))
    | _ => none

/-- One iteration of the slide loop (`app.py` lines 34-189): adds exactly one
page, dispatching on the `type` value; an error anywhere aborts the build. -/
def renderSlide (layout : List String → List (String × String) → Except String Unit)
    (slide_data : JValue) : Except PyErr Page := do
  match slide_data with
  | .obj kvs =>
    let title := dgetD kvs "title" (.str "No Title")
    let sType := dgetD kvs "type" .null
    let content := dgetD kvs "content" (.obj [])
    if isStr sType "bullet_points" then do
      let pointsVal ← pyGetD content "points" (.arr [])
      let points ← pyIter pointsVal
      return ⟨title, .bullets (points.map fun item => "• " ++ pyStr item)⟩
    else if isStr sType "bar_chart" then do
      let labels ← pyGetD content "labels" (.arr [])
      let values ← pyGetD content "values" (.arr [])
      return ⟨title, .barChart labels values⟩
    else if isStr sType "network_graph" then do
      let rawNodesVal ← pyGetD content "nodes" (.arr [])
      let rawEdgesVal ← pyGetD content "edges" (.arr [])
      let rawNodes ← pyIter rawNodesVal
      let cn ← clean_nodes rawNodes
      let rawEdges ← pyIter rawEdgesVal
      let ce := clean_edges rawEdges
      return ⟨title, .graphImage (graphBodyOf layout cn ce)⟩
    else if isStr sType "timeline" then do
      let eventsVal ← pyGetD content "events" (.arr [])
      let eventsVal := if !truthy eventsVal && isList content then content else eventsVal
      let events ← pyIter eventsVal
      let entries := timelineEntries events
      if entries.isEmpty then
        return ⟨title, .timelineImage .noData⟩
      else
        return ⟨title, .timelineImage (.drawn (entries.map fun p => (p.1, display_label p.2)))⟩
    else
      return ⟨title, .empty⟩
  | _ => .error (.attributeError (pyTypeName slide_data) "get")

/-- The slide loop over the already-iterated descriptor list. -/
def renderDeck (layout : List String → List (String × String) → Except String Unit) :
    List JValue → Except PyErr (List Page)
  | [] => .ok []
  | s :: rest =>
    match renderSlide layout s with
    | .error e => .error e
    | .ok p =>
      match renderDeck layout rest with
      | .error e => .error e
      | .ok ps => .ok (p :: ps)

/-- `create_slide_deck(json_data)` (`app.py` lines 31-195), abstracting the
output document as its ordered page list. -/
def create_slide_deck (layout : List String → List (String × String) → Except String Unit)
    (json_data : JValue) : Except PyErr (List Page) := do
  let slides ← pyIter json_data
  renderDeck layout slides

/-- A layout/draw oracle that always succeeds. -/
def layoutOk : List String → List (String × String) → Except String Unit :=
  fun _ _ => .ok ()

/-- A layout/draw oracle that always raises, with message `msg`. -/
def layoutFail (msg : String) : List String → List (String × String) → Except String Unit :=
  fun _ _ => .error msg

/-- Spec-side restatement of the timeline key lookup, written from the spec's
words for the refinement in C4: the value of the first key in the priority
list whose value is present and truthy, stringified; the sentinel if no key
matches. Compared against the code-side `eventDate` / `eventLabel`. -/
def specFirstTruthyKey (e : List (String × JValue)) (sentinel : String) :
    List String → String
  | [] => sentinel
  | k :: ks =>
    match (e.find? (fun kv => kv.1 == k)).map Prod.snd with
    | some v => if truthy v then pyStr v else specFirstTruthyKey e sentinel ks
    | none => specFirstTruthyKey e sentinel ks

/-- A two-slide demo deck: one well-formed bullet slide, one descriptor with
an unknown type. -/
def demoDeck : List JValue :=
  [.obj [("title", .str "Intro"), ("type", .str "bullet_points"),
         ("content", .obj [("points", .arr [.str "p1"])])],
   .obj [("title", .str "X"), ("type", .str "mystery")]]

/-- The pages `demoDeck` renders to. -/
def demoPages : List Page :=
  [⟨.str "Intro", .bullets ["• p1"]⟩, ⟨.str "X", .empty⟩]

/-- A network-graph demo slide with one node and no edges. -/
def demoGraphSlide : JValue :=
  .obj [("title", .str "Net"), ("type", .str "network_graph"),
        ("content", .obj [("nodes", .arr [.str "A"]), ("edges", .arr [])])]

/-- The page `demoGraphSlide` renders to when the layout/draw step raises
with message `msg`. -/
def demoGraphErrorPage (msg : String) : Page :=
  ⟨.str "Net", .graphImage (.drawError ("Graph Error: " ++ msg))⟩

section HelperLemmas

/-- One step of the `or`-chain against one step of the spec-side key search. -/
theorem pyOr_step_eq_spec (e : List (String × JValue)) (k : String) (rest : JValue)
    (ks : List String) (sentinel : String)
    (ih : pyStr rest = specFirstTruthyKey e sentinel ks) :
    pyStr (pyOr (dgetD e k .null) rest) = specFirstTruthyKey e sentinel (k :: ks) := by
  cases h : List.find? (fun kv => kv.1 == k) e with
  | none => simp [specFirstTruthyKey, pyOr, dgetD, h, truthy, ih]
  | some kv =>
    by_cases ht : truthy kv.2
    · simp [specFirstTruthyKey, pyOr, dgetD, h, ht]
    · simp [specFirstTruthyKey, pyOr, dgetD, h, ht, ih]

/-- The code-side date extraction agrees with the spec-side key search. -/
theorem eventDate_eq_spec (e : List (String × JValue)) :
    pyStr (eventDate e) = specFirstTruthyKey e "N/A" ["date", "year", "time", "Date"] := by
  unfold eventDate
  apply pyOr_step_eq_spec
  apply pyOr_step_eq_spec
  apply pyOr_step_eq_spec
  apply pyOr_step_eq_spec
  rfl

/-- The code-side label extraction agrees with the spec-side key search. -/
theorem eventLabel_eq_spec (e : List (String × JValue)) :
    pyStr (eventLabel e) = specFirstTruthyKey e "No Label" ["label", "title", "event", "Label"] := by
  unfold eventLabel
  apply pyOr_step_eq_spec
  apply pyOr_step_eq_spec
  apply pyOr_step_eq_spec
  apply pyOr_step_eq_spec
  rfl

/-- A value that is not the string `s` fails the `== s` test. -/
theorem isStr_eq_false_of_ne (v : JValue) (s : String) (h : v ≠ .str s) :
    isStr v s = false := by
  cases v with
  | str t =>
    simp only [isStr, beq_eq_false_iff_ne, ne_eq]
    intro ht
    exact h (by rw [ht])
  | null => rfl
  | bool b => rfl
  | num n => rfl
  | arr xs => rfl
  | obj kvs => rfl

/-- Membership in `addNode`. -/
theorem mem_addNode (x n : String) (acc : List String) :
    x ∈ addNode acc n ↔ x ∈ acc ∨ x = n := by
  unfold addNode
  split
  · rename_i hmem
    constructor
    · exact Or.inl
    · rintro (h | rfl)
      · exact h
      · exact hmem
  · simp

/-- Membership in the edge-endpoint fold of `graphNodeList`. -/
theorem mem_foldl_addEdges (x : String) :
    ∀ (l : List (String × String)) (acc : List String),
      x ∈ l.foldl (fun acc p => addNode (addNode acc p.1) p.2) acc ↔
        x ∈ acc ∨ ∃ p ∈ l, x = p.1 ∨ x = p.2
  | [], acc => by simp
  | p :: rest, acc => by
    rw [List.foldl_cons, mem_foldl_addEdges x rest]
    simp only [mem_addNode, List.mem_cons]
    constructor
    · rintro (((h | h) | h) | ⟨q, hq, h⟩)
      · exact Or.inl h
      · exact Or.inr ⟨p, Or.inl rfl, Or.inl h⟩
      · exact Or.inr ⟨p, Or.inl rfl, Or.inr h⟩
      · exact Or.inr ⟨q, Or.inr hq, h⟩
    · rintro (h | ⟨q, (rfl | hq), h⟩)
      · exact Or.inl (Or.inl (Or.inl h))
      · rcases h with h | h
        · exact Or.inl (Or.inl (Or.inr h))
        · exact Or.inl (Or.inr h)
      · exact Or.inr ⟨q, hq, h⟩

/-- Membership in the graph node set when the cleaned node list is empty:
exactly the edge endpoints. -/
theorem mem_graphNodeList_nil (x : String) (ce : List (String × String)) :
    x ∈ graphNodeList [] ce ↔ ∃ p ∈ ce, x = p.1 ∨ x = p.2 := by
  unfold graphNodeList
  rw [show ([] : List String).foldl addNode [] = [] from rfl, mem_foldl_addEdges]
  simp

/-- `renderDeck` success: one page per descriptor, in order. -/
theorem renderDeck_ok (layout : List String → List (String × String) → Except String Unit) :
    ∀ (slides : List JValue) (pages : List Page),
      renderDeck layout slides = .ok pages →
      pages.length = slides.length ∧
      ∀ i (h1 : i < slides.length) (h2 : i < pages.length),
        renderSlide layout (slides.get ⟨i, h1⟩) = .ok (pages.get ⟨i, h2⟩)
  | [], pages, h => by
    simp only [renderDeck, Except.ok.injEq] at h
    subst h
    exact ⟨rfl, fun i h1 _ => absurd h1 (by simp)⟩
  | s :: rest, pages, h => by
    cases hp : renderSlide layout s with
    | error e => simp [renderDeck, hp] at h
    | ok p =>
      cases hr : renderDeck layout rest with
      | error e => simp [renderDeck, hp, hr] at h
      | ok ps =>
        obtain ⟨ihlen, ihget⟩ := renderDeck_ok layout rest ps hr
        simp only [renderDeck, hp, hr, Except.ok.injEq] at h
        subst h
        refine ⟨by simp [ihlen], fun i h1 h2 => ?_⟩
        match i with
        | 0 => exact hp
        | i + 1 =>
          exact ihget i (by simpa using h1) (by simpa using h2)

end HelperLemmas

/-- C1: the claimed node normalization crashes instead of skipping an empty
mapping: on the spec's own example `["A", ["B"], {"x":"C"}, {}, [], 5]` the
code raises `IndexError` at the `{}` entry (`str(list(n.values())[0])` on an
empty dict), while the same list without the `{}` entry does normalize to
`["A", "B", "C"]` with the empty sequence and the number silently skipped. -/
theorem c1_empty_mapping_node_raises :
    clean_nodes [.str "A", .arr [.str "B"], .obj [("x", .str "C")],
                 .obj [], .arr [], .num 5] =
      .error (.indexError "list index out of range") ∧
    clean_nodes [.str "A", .arr [.str "B"], .obj [("x", .str "C")],
                 .arr [], .num 5] =
      .ok ["A", "B", "C"] :=
  ⟨rfl, rfl⟩

/-- C2: the input normalizer is not exception-free: a nodes list containing
an empty mapping makes node cleaning raise `IndexError`. -/
theorem c2_normalizer_raises_on_empty_dict_node :
    clean_nodes [.obj []] = .error (.indexError "list index out of range") :=
  rfl

/-- C3: a timeline descriptor whose content is itself a sequence does not
render: `content.get('events', [])` raises `AttributeError` on a list before
the `isinstance(content, list)` legacy branch can ever run, for every such
content sequence and every layout oracle. -/
theorem c3_list_content_timeline_raises :
    ∀ layout (xs : List JValue),
      renderSlide layout (.obj [("type", .str "timeline"), ("content", .arr xs)]) =
        .error (.attributeError "list" "get") :=
  fun _ _ => rfl

/-- C4: timeline date and label extraction take the first key among
`date`,`year`,`time`,`Date` (resp. `label`,`title`,`event`,`Label`) whose
value is truthy, stringified, with falsy values falling through, and the
sentinels `"N/A"` / `"No Label"` when no key matches; in particular
`{"year": 1990, "event": "Founded"}` yields `"1990"` / `"Founded"`, `{}`
yields the sentinels, and falsy `date`/`year` values fall through to a later
truthy key. -/
theorem c4_timeline_key_fallthrough :
    (∀ e, pyStr (eventDate e) =
      specFirstTruthyKey e "N/A" ["date", "year", "time", "Date"]) ∧
    (∀ e, pyStr (eventLabel e) =
      specFirstTruthyKey e "No Label" ["label", "title", "event", "Label"]) ∧
    pyStr (eventDate [("year", .num 1990), ("event", .str "Founded")]) = "1990" ∧
    pyStr (eventLabel [("year", .num 1990), ("event", .str "Founded")]) = "Founded" ∧
    pyStr (eventDate []) = "N/A" ∧
    pyStr (eventLabel []) = "No Label" ∧
    pyStr (eventDate [("date", .str ""), ("year", .num 0), ("time", .str "T")]) = "T" :=
  ⟨eventDate_eq_spec, eventLabel_eq_spec, rfl, rfl, rfl, rfl, rfl⟩

/-- C5: edge normalization turns a sequence entry of length ≥ 2 into the pair
of its first two elements stringified (extras ignored), a mapping entry with
≥ 2 values into the pair of its first two values stringified (key names
irrelevant), and skips entries with fewer than two elements/values; in
particular `[["A","B"], {"s":"A","t":"C"}, ["X"]]` yields
`[("A","B"), ("A","C")]`. -/
theorem c5_edge_normalization :
    (∀ a b rest es, clean_edges (.arr (a :: b :: rest) :: es) =
      (pyStr a, pyStr b) :: clean_edges es) ∧
    (∀ k1 a k2 b rest es, clean_edges (.obj ((k1, a) :: (k2, b) :: rest) :: es) =
      (pyStr a, pyStr b) :: clean_edges es) ∧
    (∀ es, clean_edges (.arr [] :: es) = clean_edges es) ∧
    (∀ x es, clean_edges (.arr [x] :: es) = clean_edges es) ∧
    (∀ es, clean_edges (.obj [] :: es) = clean_edges es) ∧
    (∀ k a es, clean_edges (.obj [(k, a)] :: es) = clean_edges es) ∧
    clean_edges [.arr [.str "A", .str "B"], .obj [("s", .str "A"), ("t", .str "C")],
                 .arr [.str "X"]] =
      [("A", "B"), ("A", "C")] :=
  ⟨fun _ _ _ _ => rfl, fun _ _ _ _ _ _ => rfl, fun _ => rfl, fun _ _ => rfl,
   fun _ => rfl, fun _ _ _ => rfl, rfl⟩

/-- C6: a successful build produces exactly one page per descriptor, in input
order (page `i` is the render of descriptor `i`), and a descriptor whose
`type` is none of the four known kinds always renders to a page carrying only
the title region and an otherwise empty body. -/
theorem c6_one_page_per_descriptor :
    (∀ layout slides pages,
      create_slide_deck layout (.arr slides) = .ok pages →
      pages.length = slides.length ∧
      ∀ i (h1 : i < slides.length) (h2 : i < pages.length),
        renderSlide layout (slides.get ⟨i, h1⟩) = .ok (pages.get ⟨i, h2⟩)) ∧
    (∀ layout kvs t,
      dgetD kvs "title" (.str "No Title") = .str t →
      dgetD kvs "type" .null ≠ .str "bullet_points" →
      dgetD kvs "type" .null ≠ .str "bar_chart" →
      dgetD kvs "type" .null ≠ .str "network_graph" →
      dgetD kvs "type" .null ≠ .str "timeline" →
      renderSlide layout (.obj kvs) = .ok ⟨.str t, .empty⟩) := by
  constructor
  · intro layout slides pages h
    exact renderDeck_ok layout slides pages h
  · intro layout kvs t ht h1 h2 h3 h4
    have e1 := isStr_eq_false_of_ne _ _ h1
    have e2 := isStr_eq_false_of_ne _ _ h2
    have e3 := isStr_eq_false_of_ne _ _ h3
    have e4 := isStr_eq_false_of_ne _ _ h4
    simp [renderSlide, e1, e2, e3, e4, ht, pure, Except.pure]

/-- Witness for C6 at a concrete deck: one well-formed bullet slide plus one
unknown-type descriptor produce two pages, and the unknown-type descriptor
renders title-only. -/
theorem c6_witness :
    (demoPages.length = demoDeck.length ∧
      ∀ i (h1 : i < demoDeck.length) (h2 : i < demoPages.length),
        renderSlide layoutOk (demoDeck.get ⟨i, h1⟩) = .ok (demoPages.get ⟨i, h2⟩)) ∧
    renderSlide layoutOk (.obj [("title", .str "X"), ("type", .str "mystery")]) =
      .ok ⟨.str "X", .empty⟩ :=
  by
  refine ⟨c6_one_page_per_descriptor.1 layoutOk demoDeck demoPages rfl, ?_⟩
  have hty : dgetD [("title", JValue.str "X"), ("type", JValue.str "mystery")]
      "type" JValue.null = JValue.str "mystery" := rfl
  exact c6_one_page_per_descriptor.2 layoutOk
    [("title", .str "X"), ("type", .str "mystery")] "X" rfl
    (by rw [hty]; simp) (by rw [hty]; simp) (by rw [hty]; simp) (by rw [hty]; simp)

/-- C7: for a network-graph render whose graph has at least one node, a
layout/draw step that raises with message `msg` is caught locally: the result
is a normal page whose image shows `"Graph Error: " ++ msg`, no exception
propagates, and the build continues to the next slide. -/
theorem c7_graph_error_contained :
    (∀ msg rawNodes rawEdges cn,
      clean_nodes rawNodes = .ok cn →
      graphNodeList cn (clean_edges rawEdges) ≠ [] →
      renderGraphBody (layoutFail msg) rawNodes rawEdges =
        .ok (.drawError ("Graph Error: " ++ msg))) ∧
    (∀ msg slide2 p2,
      renderSlide (layoutFail msg) slide2 = .ok p2 →
      create_slide_deck (layoutFail msg) (.arr [demoGraphSlide, slide2]) =
        .ok [demoGraphErrorPage msg, p2]) := by
  constructor
  · intro msg rawNodes rawEdges cn hcn hne
    have hempty : (graphNodeList cn (clean_edges rawEdges)).isEmpty = false := by
      simpa [List.isEmpty_iff] using hne
    simp [renderGraphBody, hcn, graphBodyOf, hempty, layoutFail]
  · intro msg slide2 p2 h
    have h1 : renderSlide (layoutFail msg) demoGraphSlide = .ok (demoGraphErrorPage msg) := rfl
    show renderDeck (layoutFail msg) [demoGraphSlide, slide2] =
      .ok [demoGraphErrorPage msg, p2]
    simp [renderDeck, h1, h]

/-- Witness for C7 at concrete inputs: one node, a layout failure "boom", and
a second slide of unknown type that still gets rendered. -/
theorem c7_witness :
    renderGraphBody (layoutFail "boom") [.str "A"] [] =
      .ok (.drawError ("Graph Error: " ++ "boom")) ∧
    create_slide_deck (layoutFail "boom")
        (.arr [demoGraphSlide, .obj [("type", .str "mystery")]]) =
      .ok [demoGraphErrorPage "boom", ⟨.str "No Title", .empty⟩] :=
  ⟨c7_graph_error_contained.1 "boom" [.str "A"] [] ["A"] rfl (by decide),
   c7_graph_error_contained.2 "boom" (.obj [("type", .str "mystery")])
     ⟨.str "No Title", .empty⟩ rfl⟩

/-- C8: a timeline label longer than 10 characters is displayed as exactly
its first 10 characters followed by the three-dot ellipsis marker (so the
display is 13 characters long); a label of length ≤ 10 is displayed
unchanged. -/
theorem c8_label_truncation :
    (∀ label : String, label.length > 10 →
      display_label label = (label.toList.take 10).asString ++ "..." ∧
      (display_label label).length = 13) ∧
    (∀ label : String, label.length ≤ 10 → display_label label = label) := by
  constructor
  · intro label h
    have hd : display_label label = (label.toList.take 10).asString ++ "..." := by
      simp [display_label, h]
    refine ⟨hd, ?_⟩
    rw [hd, String.length_append]
    have h10 : (label.toList.take 10).length = 10 := by
      rw [List.length_take]
      have hlen : label.toList.length = label.length := rfl
      omega
    have hcast : ((label.toList.take 10).asString).length = (label.toList.take 10).length := rfl
    rw [hcast, h10, show ("..." : String).length = 3 from rfl]
  · intro label h
    have hlt : ¬ label.length > 10 := by omega
    simp [display_label, hlt]

/-- Witness for C8 at concrete labels: a 15-character label is truncated to
10 characters plus the ellipsis, a 5-character label is unchanged. -/
theorem c8_witness :
    (display_label "ABCDEFGHIJKLMNO" =
        (("ABCDEFGHIJKLMNO" : String).toList.take 10).asString ++ "..." ∧
      (display_label "ABCDEFGHIJKLMNO").length = 13) ∧
    display_label "short" = "short" :=
  ⟨c8_label_truncation.1 "ABCDEFGHIJKLMNO" (by decide),
   c8_label_truncation.2 "short" (by decide)⟩

/-- C9: a network-graph slide whose content is `{"nodes": [], "edges": []}`
renders without error, for every layout oracle, to a page whose image body is
exactly the "No Data for Graph" placeholder. -/
theorem c9_empty_graph_placeholder :
    ∀ layout, renderSlide layout
      (.obj [("title", .str "G"), ("type", .str "network_graph"),
             ("content", .obj [("nodes", .arr []), ("edges", .arr [])])]) =
      .ok ⟨.str "G", .graphImage .noData⟩ :=
  fun _ => rfl

/-- C10: when the nodes list cleans to nothing but edge cleaning yields at
least one edge, the placeholder branch is not taken (no layout oracle can
produce the "No Data for Graph" body): the edge endpoints are implicitly
registered as graph nodes, and with a successful layout the drawn graph is
exactly the graph of those endpoints. -/
theorem c10_edges_register_endpoints :
    ∀ (rawNodes rawEdges : List JValue) (e : String × String)
      (es : List (String × String)),
      clean_nodes rawNodes = .ok [] →
      clean_edges rawEdges = e :: es →
      (∀ layout, renderGraphBody layout rawNodes rawEdges ≠ .ok .noData) ∧
      renderGraphBody layoutOk rawNodes rawEdges =
        .ok (.drawn (graphNodeList [] (e :: es)) (e :: es)) ∧
      (∀ x, x ∈ graphNodeList [] (e :: es) ↔ ∃ p ∈ e :: es, x = p.1 ∨ x = p.2) := by
  intro rawNodes rawEdges e es hcn hce
  have hmem : e.1 ∈ graphNodeList [] (e :: es) :=
    (mem_graphNodeList_nil e.1 (e :: es)).mpr ⟨e, List.mem_cons_self e es, Or.inl rfl⟩
  have hne : graphNodeList [] (e :: es) ≠ [] := List.ne_nil_of_mem hmem
  have hempty : (graphNodeList [] (e :: es)).isEmpty = false := by
    simpa [List.isEmpty_iff] using hne
  refine ⟨?_, ?_, fun x => mem_graphNodeList_nil x (e :: es)⟩
  · intro layout hcontra
    simp only [renderGraphBody, hcn, hce, graphBodyOf, hempty] at hcontra
    cases hl : layout (graphNodeList [] (e :: es)) (e :: es) with
    | ok u => simp [hl] at hcontra
    | error ex => simp [hl] at hcontra
  · simp [renderGraphBody, hcn, hce, graphBodyOf, hempty, layoutOk]

/-- Witness for C10 at concrete inputs: the nodes list `[7]` cleans to
nothing, the edges list `[["A","B"]]` yields one edge, and the graph of the
endpoints "A", "B" is drawn. -/
theorem c10_witness :
    (∀ layout, renderGraphBody layout [.num 7] [.arr [.str "A", .str "B"]] ≠
      .ok .noData) ∧
    renderGraphBody layoutOk [.num 7] [.arr [.str "A", .str "B"]] =
      .ok (.drawn (graphNodeList [] [("A", "B")]) [("A", "B")]) ∧
    (∀ x, x ∈ graphNodeList [] [("A", "B")] ↔
      ∃ p ∈ [(("A" : String), ("B" : String))], x = p.1 ∨ x = p.2) :=
  c10_edges_register_endpoints [.num 7] [.arr [.str "A", .str "B"]] ("A", "B") [] rfl rfl

end SlideMaker
